import Mathlib

/-!
Verification of the generated dependency-injection container facade
(package `dic`) of the Gotham web backend, together with a model of the
scoped-container semantics it delegates to.

Modelling conventions:
- Go `(T, error)` return pairs become `T × Option String` (the error is
  the message string; `none` means a nil error).
- A Go function that may panic becomes `Except String T`; `.error msg`
  is the panic with that message.
- The external object types stored in the container (controllers,
  services, repositories, gorm handles) are opaque to the facade; they
  are modelled as tagged values with an explicit Go zero value:
  struct types get a zero struct, interface and pointer types get `nil`
  (a dedicated constructor / `Option.none`).
- The untyped store `interface\x7b\x7d` becomes the inductive `GoValue`;
  a Go type assertion `i.(T)` becomes a cast function `GoValue → Option T`
  that succeeds exactly when the runtime tag matches.
-/

namespace GothamDic

namespace controllers

/-- Model of the struct type `controllers.AuthController` (opaque payload). -/
structure AuthController where
  id : Nat
deriving DecidableEq

/-- Go zero value of the struct type `controllers.AuthController`. -/
def AuthController.zeroVal : AuthController := ⟨0⟩

end controllers

namespace gorm

/-- Model of the struct type `gorm.DB` (opaque payload); the container
stores values of the pointer type `*gorm.DB`, modelled `Option DB`
with `none` for the nil pointer. -/
structure DB where
  id : Nat
deriving DecidableEq

/-- Go zero value of the pointer type `*gorm.DB`: the nil pointer. -/
def DBPtr.zeroVal : Option DB := none

end gorm

namespace repositories

/-- Model of the interface type `repositories.IUserRepository`;
`nilVal` is the nil interface value. -/
inductive IUserRepository where
  | nilVal : IUserRepository
  | impl (id : Nat) : IUserRepository
deriving DecidableEq

/-- Go zero value of the interface type `repositories.IUserRepository`. -/
def IUserRepository.zeroVal : IUserRepository := .nilVal

end repositories

namespace services

/-- Model of the interface type `services.IUserService`;
`nilVal` is the nil interface value. -/
inductive IUserService where
  | nilVal : IUserService
  | impl (id : Nat) : IUserService
deriving DecidableEq

/-- Go zero value of the interface type `services.IUserService`. -/
def IUserService.zeroVal : IUserService := .nilVal

end services

/-- A value stored in the container under `interface\x7b\x7d`, tagged with
its runtime type. `vOther` stands for any runtime type different from the
four accessor types modelled here. -/
inductive GoValue where
  | vAuthController (v : controllers.AuthController)
  | vDb (v : Option gorm.DB)
  | vUserRepository (v : repositories.IUserRepository)
  | vUserService (v : services.IUserService)
  | vOther (tag : String) (n : Nat)
deriving DecidableEq

/-- Go type assertion `i.(controllers.AuthController)`. -/
def castAuthController : GoValue → Option controllers.AuthController
  | .vAuthController v => some v
  | _ => none

/-- Go type assertion `i.(*gorm.DB)`. -/
def castDb : GoValue → Option (Option gorm.DB)
  | .vDb v => some v
  | _ => none

/-- Go type assertion `i.(repositories.IUserRepository)`. -/
def castUserRepository : GoValue → Option repositories.IUserRepository
  | .vUserRepository v => some v
  | _ => none

/-- Go type assertion `i.(services.IUserService)`. -/
def castUserService : GoValue → Option services.IUserService
  | .vUserService v => some v
  | _ => none

/-- Snapshot of the external `di.Container` that the generated wrapper
delegates to: its scope name and the outcomes of its untyped `SafeGet`
and `UnscopedSafeGet` for each object name. The wrapper code never
inspects these, it only forwards to them. -/
structure DiContainer where
  scope : String
  safeGetRaw : String → Except String GoValue
  unscopedSafeGetRaw : String → Except String GoValue

/-- Modelled from the spec: `di.Container.Get` ("`Get` wraps `SafeGet`
and converts any error into a fatal abort (panic/crash)"); the di
library itself is not part of the sources. `.error` is the panic. -/
def DiContainer.get (c : DiContainer) (name : String) : Except String GoValue :=
  c.safeGetRaw name

/-- The generated `dic.Container`: a wrapper around a `di.Container`
(field `ctn`). -/
structure Container where
  ctn : DiContainer

/-- Method `Container.Scope` returns the Container scope. -/
def Container.Scope (c : Container) : String :=
  c.ctn.scope

/-- Method `Container.SafeGet` forwards to `di.Container.SafeGet`; as a Go
method it returns the pair `(interface\x7b\x7d, error)`, with a nil
value alongside a non-nil error. -/
def Container.SafeGet (c : Container) (name : String) : Option GoValue × Option String :=
  match c.ctn.safeGetRaw name with
  | .ok v => (some v, none)
  | .error e => (none, some e)

/-- Method `Container.Get` forwards to `di.Container.Get`: like `SafeGet` but
panicking instead of returning the error. -/
def Container.Get (c : Container) (name : String) : Except String GoValue :=
  c.ctn.get name

/-- Method `Container.UnscopedSafeGet` forwards to `di.Container.UnscopedSafeGet`. -/
def Container.UnscopedSafeGet (c : Container) (name : String) : Option GoValue × Option String :=
  match c.ctn.unscopedSafeGetRaw name with
  | .ok v => (some v, none)
  | .error e => (none, some e)

/-- The fixed wrong-type error message of the `auth-controller` accessors. -/
def authControllerCastMsg : String :=
  "could get \x27auth-controller\x27 because the object could not be cast to controllers.AuthController"

/-- The fixed wrong-type error message of the `db` accessors. -/
def dbCastMsg : String :=
  "could get \x27db\x27 because the object could not be cast to *gorm.DB"

/-- The fixed wrong-type error message of the `user-repository` accessors. -/
def userRepositoryCastMsg : String :=
  "could get \x27user-repository\x27 because the object could not be cast to repositories.IUserRepository"

/-- The fixed wrong-type error message of the `user-service` accessors. -/
def userServiceCastMsg : String :=
  "could get \x27user-service\x27 because the object could not be cast to services.IUserService"

/-- Method `Container.SafeGetAuthController`: untyped `SafeGet` of
`"auth-controller"`, then the type assertion; the error cases return the
zero value of `controllers.AuthController` (the Go two-value assertion
leaves `o` at its zero value when it fails). -/
def Container.SafeGetAuthController (c : Container) : controllers.AuthController × Option String :=
  match c.ctn.safeGetRaw "auth-controller" with
  | .error err => (controllers.AuthController.zeroVal, some err)
  | .ok i =>
    match castAuthController i with
    | some o => (o, none)
    | none => (controllers.AuthController.zeroVal, some authControllerCastMsg)

/-- Method `Container.GetAuthController`: `SafeGetAuthController`, panicking on error. -/
def Container.GetAuthController (c : Container) : Except String controllers.AuthController :=
  match c.SafeGetAuthController with
  | (o, none) => .ok o
  | (_, some e) => .error e

/-- Method `Container.UnscopedSafeGetAuthController`: like `SafeGetAuthController`
over the untyped `UnscopedSafeGet`. -/
def Container.UnscopedSafeGetAuthController (c : Container) : controllers.AuthController × Option String :=
  match c.ctn.unscopedSafeGetRaw "auth-controller" with
  | .error err => (controllers.AuthController.zeroVal, some err)
  | .ok i =>
    match castAuthController i with
    | some o => (o, none)
    | none => (controllers.AuthController.zeroVal, some authControllerCastMsg)

/-- Method `Container.UnscopedGetAuthController`: `UnscopedSafeGetAuthController`,
panicking on error. -/
def Container.UnscopedGetAuthController (c : Container) : Except String controllers.AuthController :=
  match c.UnscopedSafeGetAuthController with
  | (o, none) => .ok o
  | (_, some e) => .error e

/-- Method `Container.SafeGetDb`: untyped `SafeGet` of `"db"`, then the type
assertion to `*gorm.DB`. -/
def Container.SafeGetDb (c : Container) : Option gorm.DB × Option String :=
  match c.ctn.safeGetRaw "db" with
  | .error err => (gorm.DBPtr.zeroVal, some err)
  | .ok i =>
    match castDb i with
    | some o => (o, none)
    | none => (gorm.DBPtr.zeroVal, some dbCastMsg)

/-- Method `Container.GetDb`: `SafeGetDb`, panicking on error. -/
def Container.GetDb (c : Container) : Except String (Option gorm.DB) :=
  match c.SafeGetDb with
  | (o, none) => .ok o
  | (_, some e) => .error e

/-- Method `Container.UnscopedSafeGetDb`: like `SafeGetDb` over the untyped
`UnscopedSafeGet`. -/
def Container.UnscopedSafeGetDb (c : Container) : Option gorm.DB × Option String :=
  match c.ctn.unscopedSafeGetRaw "db" with
  | .error err => (gorm.DBPtr.zeroVal, some err)
  | .ok i =>
    match castDb i with
    | some o => (o, none)
    | none => (gorm.DBPtr.zeroVal, some dbCastMsg)

/-- Method `Container.UnscopedGetDb`: `UnscopedSafeGetDb`, panicking on error. -/
def Container.UnscopedGetDb (c : Container) : Except String (Option gorm.DB) :=
  match c.UnscopedSafeGetDb with
  | (o, none) => .ok o
  | (_, some e) => .error e

/-- Method `Container.SafeGetUserRepository`: untyped `SafeGet` of
`"user-repository"`, then the type assertion. -/
def Container.SafeGetUserRepository (c : Container) : repositories.IUserRepository × Option String :=
  match c.ctn.safeGetRaw "user-repository" with
  | .error err => (repositories.IUserRepository.zeroVal, some err)
  | .ok i =>
    match castUserRepository i with
    | some o => (o, none)
    | none => (repositories.IUserRepository.zeroVal, some userRepositoryCastMsg)

/-- Method `Container.GetUserRepository`: `SafeGetUserRepository`, panicking on error. -/
def Container.GetUserRepository (c : Container) : Except String repositories.IUserRepository :=
  match c.SafeGetUserRepository with
  | (o, none) => .ok o
  | (_, some e) => .error e

/-- Method `Container.SafeGetUserService`: untyped `SafeGet` of
`"user-service"`, then the type assertion. -/
def Container.SafeGetUserService (c : Container) : services.IUserService × Option String :=
  match c.ctn.safeGetRaw "user-service" with
  | .error err => (services.IUserService.zeroVal, some err)
  | .ok i =>
    match castUserService i with
    | some o => (o, none)
    | none => (services.IUserService.zeroVal, some userServiceCastMsg)

/-- Method `Container.GetUserService`: `SafeGetUserService`, panicking on error. -/
def Container.GetUserService (c : Container) : Except String services.IUserService :=
  match c.SafeGetUserService with
  | (o, none) => .ok o
  | (_, some e) => .error e

/-- The key type `dingo.ContainerKey` (a string wrapper) under which the
container is stored in a request context. -/
structure ContainerKey where
  key : String
deriving DecidableEq

/-- A value held in an `http.Request` context: a `*Container` or
anything else. -/
inductive CtxVal where
  | ctnV (c : Container)
  | otherCtx (tag : String)

/-- Model of `*http.Request`: only its context lookup is relevant to
`dic.C`. -/
structure HttpRequest where
  ctxValue : ContainerKey → Option CtxVal

/-- The dynamic input of the resolver `dic.C`: a `*Container`, an
`*http.Request`, or any other runtime type. -/
inductive Iface where
  | ctn (c : Container)
  | req (r : HttpRequest)
  | other (tag : String) (n : Nat)

/-- The resolver `dic.C`: returns a `*Container` argument unchanged;
for an `*http.Request` it looks up `dingo.ContainerKey("dingo")` in the
request context and type-asserts it to `*Container`; every other case
panics (`.error`). -/
def C : Iface → Except String Container
  | .ctn c => .ok c
  | .req r =>
    match r.ctxValue ⟨"dingo"⟩ with
    | some (.ctnV c) => .ok c
    | _ => .error "could not get the container from the given *http.Request in dic.C()"
  | .other _ _ => .error "could not get the container with dic.C()"

/-- The generated free function `dic.AuthController`: resolve the
container with `C`, then `GetAuthController`; a panic in either step
propagates. -/
def AuthController (i : Iface) : Except String controllers.AuthController :=
  match C i with
  | .error e => .error e
  | .ok c => c.GetAuthController

/-- The generated free function `dic.Db`: resolve with `C`, then `GetDb`. -/
def Db (i : Iface) : Except String (Option gorm.DB) :=
  match C i with
  | .error e => .error e
  | .ok c => c.GetDb

/-- The generated free function `dic.UserService`: resolve with `C`,
then `GetUserService`. -/
def UserService (i : Iface) : Except String services.IUserService :=
  match C i with
  | .error e => .error e
  | .ok c => c.GetUserService

/-- A `di.Def` as the builder validates it: its name, its scope and
whether its build function is non-nil. -/
structure DiDef where
  name : String
  scope : String
  hasBuild : Bool
deriving DecidableEq

/-- Modelled from the spec: the scope constants `di.App`, `di.Request`,
`di.SubRequest` of the external di library ("e.g.
`["app","request","subrequest"]`"). -/
def appScope : String := "app"

/-- Modelled from the spec: the `di.Request` scope constant. -/
def requestScope : String := "request"

/-- Modelled from the spec: the `di.SubRequest` scope constant. -/
def subRequestScope : String := "subrequest"

/-- The external `di.Builder`: its declared scope list and the
definitions registered so far. -/
structure DiBuilder where
  scopes : List String
  registered : List DiDef

/-- Modelled from the spec: `di.NewBuilder` rejects an invalid scope
list (empty, or containing duplicates); the di library is not part of
the sources. -/
def diNewBuilder (scopes : List String) : Except String DiBuilder :=
  if scopes = [] ∨ ¬ scopes.Nodup then .error "invalid scope list"
  else .ok ⟨scopes, []⟩

/-- Modelled from the spec: `di.Builder.Add` "validates each added
Definition against: (a) scope is a known scope, (b) name is not already
registered, (c) build function is non-nil", with an error naming the
offending definition. -/
def DiBuilder.add (b : DiBuilder) (d : DiDef) : Except String DiBuilder :=
  if d.scope ∈ b.scopes then
    if d.name ∈ b.registered.map DiDef.name then
      .error ("definition name " ++ d.name ++ " is already used")
    else if d.hasBuild then
      .ok { b with registered := b.registered ++ [d] }
    else
      .error ("definition " ++ d.name ++ " has no build function")
  else
    .error ("definition " ++ d.name ++ " has an unknown scope " ++ d.scope)

/-- Registering a list of definitions one by one, stopping at the first
failure — the loop body of `dic.NewBuilder`. -/
def DiBuilder.addAll (b : DiBuilder) : List DiDef → Except String DiBuilder
  | [] => .ok b
  | d :: ds =>
    match b.add d with
    | .error e => .error e
    | .ok b2 => b2.addAll ds

/-- Modelled from the spec: `di.Builder.Build` "finalizes the registry
into an immutable root Container" whose scope is the widest (first)
declared scope; only the scope of the produced container is modelled
here — retrieval is modelled separately by `buildOrCached`. -/
def DiBuilder.build (b : DiBuilder) : DiContainer :=
  { scope := b.scopes.headD ""
    safeGetRaw := fun n => .error ("could not get " ++ n)
    unscopedSafeGetRaw := fun n => .error ("could not get " ++ n) }

/-- The generated `dic.builder`: a wrapper around a `di.Builder`. -/
structure Builder where
  builder : DiBuilder

/-- Method `dic.builder.Build` creates a Container in the most generic scope. -/
def Builder.Build (b : Builder) : Container :=
  ⟨b.builder.build⟩

/-- The external `Provider` (package `gotham/app/provider`, not in the
sources): whether `Load` fails, and the definitions `getDiDefs`
extracts from it. -/
structure Provider where
  loadErr : Option String
  defs : List DiDef

/-- Modelled from the spec: the generated `getDiDefs` turns the
provider entries into `di.Def` values (the provider package is not in
the sources). -/
def getDiDefs (p : Provider) : List DiDef :=
  p.defs

/-- Function `dic.NewBuilder`: substitute the default three-level scope list
when no scope is given, create the `di.Builder`, load the provider,
then add every definition, stopping at the first error; each failure is
wrapped in the fixed message of the failing step. -/
def NewBuilder (p : Provider) (scopes : List String) : Except String Builder :=
  let scopes2 := if scopes = [] then [appScope, requestScope, subRequestScope] else scopes
  match diNewBuilder scopes2 with
  | .error e => .error ("could not create di.Builder: " ++ e)
  | .ok b =>
    match p.loadErr with
    | some e => .error ("could not load definitions with the Provider (Provider from gotham/app/provider): " ++ e)
    | none =>
      match b.addAll (getDiDefs p) with
      | .error e => .error ("could not add di.Def in di.Builder: " ++ e)
      | .ok b2 => .ok ⟨b2⟩

/-- Modelled from the spec: a Definition as the container's build step
sees it — its name, its build function (given the container's build
invocation counter, so that distinct invocations may produce distinct
instances), and the `unshared` flag ("build a fresh instance every
retrieval, never cache"). -/
structure BuildDef where
  name : String
  build : Nat → Except String GoValue
  unshared : Bool

/-- The mutable per-container state relevant to retrieval: the cache of
built objects, a count of build invocations so far, and the closed flag. -/
structure CtnState where
  cache : List (String × GoValue)
  buildTick : Nat
  closed : Bool

/-- Modelled from the spec: the build-or-return-cached step of
`di.Container.SafeGet` — "under the container's lock, if already cached
return it; otherwise invoke Definition.build(container), and on success
store in cache (unless `unshared`) ...; on build failure, do not cache,
propagate the error"; a closed container refuses to build. -/
def buildOrCached (d : BuildDef) (s : CtnState) : Except String GoValue × CtnState :=
  if s.closed then
    (.error "the container has been deleted", s)
  else
    match List.lookup d.name s.cache with
    | some v => (.ok v, s)
    | none =>
      match d.build s.buildTick with
      | .error e =>
        (.error ("could not build " ++ d.name ++ ": " ++ e),
         { s with buildTick := s.buildTick + 1 })
      | .ok v =>
        if d.unshared then
          (.ok v, { s with buildTick := s.buildTick + 1 })
        else
          (.ok v, { s with cache := (d.name, v) :: s.cache, buildTick := s.buildTick + 1 })

/-- The state after `n` further `SafeGet` calls for the same definition. -/
def iterState (d : BuildDef) (s : CtnState) : Nat → CtnState
  | 0 => s
  | n + 1 => (buildOrCached d (iterState d s n)).2

/-- A concrete `di.Container` snapshot used to exercise the theorems:
`auth-controller` resolves to a well-typed value, `db` resolves to a
value of the wrong runtime type, `user-repository` fails to build,
`user-service` resolves well-typed; unscoped retrieval only knows `db`. -/
def exDi : DiContainer :=
  { scope := "app"
    safeGetRaw := fun n =>
      if n = "auth-controller" then .ok (.vAuthController ⟨7⟩)
      else if n = "db" then .ok (.vOther "string" 3)
      else if n = "user-repository" then .error "could not build user-repository"
      else if n = "user-service" then .ok (.vUserService (.impl 2))
      else .error "no definition"
    unscopedSafeGetRaw := fun n =>
      if n = "db" then .ok (.vDb (some ⟨5⟩)) else .error "no unscoped definition" }

/-- A concrete wrapper container over `exDi`. -/
def exCtn : Container := ⟨exDi⟩

/-- A concrete request whose context holds `exCtn` under the key
`dingo.ContainerKey("dingo")`. -/
def exReq : HttpRequest :=
  ⟨fun k => if k = ⟨"dingo"⟩ then some (.ctnV exCtn) else none⟩

/-- A concrete provider whose `Load` succeeds and which yields no
definition. -/
def exProvider : Provider := ⟨none, []⟩

/-- A concrete unshared definition whose build function returns a fresh
instance on every invocation. -/
def freshDef : BuildDef := ⟨"fresh-service", fun t => .ok (.vOther "fresh" t), true⟩

/-- A concrete shared (cached) definition. -/
def connDef : BuildDef := ⟨"db", fun t => .ok (.vOther "conn" t), false⟩

/-- The container state before any build. -/
def emptyState : CtnState := ⟨[], 0, false⟩

/-- C1: when the untyped `SafeGet` succeeds but the stored value's
runtime type is not the declared one, the typed accessor returns the
fixed "wrong type" error naming the object, without panicking; when the
untyped retrieval itself fails, the accessor returns that build error
unchanged — so the cast failure is surfaced as its own error, distinct
from a build failure. Shown for `SafeGetAuthController` and `SafeGetDb`. -/
theorem safeGetTyped_wrong_type_error (c : Container) :
    (∀ v, c.ctn.safeGetRaw "auth-controller" = .ok v → castAuthController v = none →
      c.SafeGetAuthController = (controllers.AuthController.zeroVal, some authControllerCastMsg)) ∧
    (∀ e, c.ctn.safeGetRaw "auth-controller" = .error e →
      c.SafeGetAuthController = (controllers.AuthController.zeroVal, some e)) ∧
    (∀ v, c.ctn.safeGetRaw "db" = .ok v → castDb v = none →
      c.SafeGetDb = (gorm.DBPtr.zeroVal, some dbCastMsg)) ∧
    (∀ e, c.ctn.safeGetRaw "db" = .error e →
      c.SafeGetDb = (gorm.DBPtr.zeroVal, some e)) ∧
    authControllerCastMsg =
      "could get \x27auth-controller\x27 because the object could not be cast to controllers.AuthController" := by
  refine ⟨?_, ?_, ?_, ?_, rfl⟩
  · intro v hv hc
    simp [Container.SafeGetAuthController, hv, hc]
  · intro e he
    simp [Container.SafeGetAuthController, he]
  · intro v hv hc
    simp [Container.SafeGetDb, hv, hc]
  · intro e he
    simp [Container.SafeGetDb, he]

/-- Witness for C1: on `exCtn`, the name `db` resolves to a value of the
wrong runtime type and the typed accessor returns the fixed cast error. -/
theorem safeGetTyped_wrong_type_error_witness :
    exCtn.SafeGetDb = (gorm.DBPtr.zeroVal, some dbCastMsg) :=
  (safeGetTyped_wrong_type_error exCtn).2.2.1 (.vOther "string" 3) rfl rfl

/-- C2: the `SafeGet` family returns its outcome as an error value (its
result type has no panic channel), and each member of the `Get` family
panics exactly when the corresponding `SafeGet` variant returns an
error, propagating that error as the panic, and otherwise returns
exactly the value the `SafeGet` variant returns. Shown for
`GetAuthController`, `UnscopedGetAuthController` and the untyped `Get`. -/
theorem get_family_panic_iff_safeGet_error (c : Container) :
    (∀ o, c.SafeGetAuthController = (o, none) → c.GetAuthController = .ok o) ∧
    (∀ o e, c.SafeGetAuthController = (o, some e) → c.GetAuthController = .error e) ∧
    (∀ o, c.UnscopedSafeGetAuthController = (o, none) → c.UnscopedGetAuthController = .ok o) ∧
    (∀ o e, c.UnscopedSafeGetAuthController = (o, some e) → c.UnscopedGetAuthController = .error e) ∧
    (∀ n v, c.SafeGet n = (some v, none) → c.Get n = .ok v) ∧
    (∀ n o e, c.SafeGet n = (o, some e) → c.Get n = .error e) := by
  refine ⟨?_, ?_, ?_, ?_, ?_, ?_⟩
  · intro o h
    simp [Container.GetAuthController, h]
  · intro o e h
    simp [Container.GetAuthController, h]
  · intro o h
    simp [Container.UnscopedGetAuthController, h]
  · intro o e h
    simp [Container.UnscopedGetAuthController, h]
  · intro n v h
    cases hr : c.ctn.safeGetRaw n with
    | ok w =>
      simp [Container.SafeGet, hr] at h
      simp [Container.Get, DiContainer.get, hr, h]
    | error e =>
      simp [Container.SafeGet, hr] at h
  · intro n o e h
    cases hr : c.ctn.safeGetRaw n with
    | ok w =>
      simp [Container.SafeGet, hr] at h
    | error e2 =>
      simp [Container.SafeGet, hr] at h
      simp [Container.Get, DiContainer.get, hr, h]

/-- Witness for C2: on `exCtn`, `SafeGetAuthController` succeeds and
`GetAuthController` returns the same value without panicking. -/
theorem get_family_panic_iff_safeGet_error_witness :
    exCtn.GetAuthController = .ok ⟨7⟩ :=
  (get_family_panic_iff_safeGet_error exCtn).1 ⟨7⟩ rfl

/-- C3: the resolver `C` returns a `*Container` input unchanged; for an
`*http.Request` whose context holds a `*Container` under the key
`dingo.ContainerKey("dingo")` it returns that container; it panics on
any other input, and on a request whose context lookup does not yield a
`*Container`. -/
theorem resolver_C_contract :
    (∀ c : Container, C (.ctn c) = .ok c) ∧
    (∀ (r : HttpRequest) (c : Container),
      r.ctxValue ⟨"dingo"⟩ = some (.ctnV c) → C (.req r) = .ok c) ∧
    (∀ t n, C (.other t n) = .error "could not get the container with dic.C()") ∧
    (∀ r : HttpRequest, (∀ c, r.ctxValue ⟨"dingo"⟩ ≠ some (.ctnV c)) →
      C (.req r) = .error "could not get the container from the given *http.Request in dic.C()") := by
  refine ⟨fun c => rfl, ?_, fun t n => rfl, ?_⟩
  · intro r c h
    simp [C, h]
  · intro r h
    cases hv : r.ctxValue ⟨"dingo"⟩ with
    | none => simp [C, hv]
    | some v =>
      cases v with
      | ctnV c => exact absurd hv (h c)
      | otherCtx t => simp [C, hv]

/-- Witness for C3: resolving `exReq`, whose context holds `exCtn` under
the dingo key, yields `exCtn`. -/
theorem resolver_C_contract_witness :
    C (.req exReq) = .ok exCtn :=
  resolver_C_contract.2.1 exReq exCtn rfl

/-- C8: every generated free accessor equals
"resolve the container with `C`, then call the panicking typed getter":
when `C` panics the free function panics with the same message, and when
`C` yields a container the free function returns exactly the typed
getter's outcome (value, or panic on retrieval/cast failure). Shown for
`AuthController`, `Db` and `UserService`. -/
theorem free_accessor_resolve_then_get :
    (∀ i e, C i = .error e →
      AuthController i = .error e ∧ Db i = .error e ∧ UserService i = .error e) ∧
    (∀ i c, C i = .ok c →
      AuthController i = c.GetAuthController ∧ Db i = c.GetDb ∧
        UserService i = c.GetUserService) := by
  constructor
  · intro i e h
    refine ⟨?_, ?_, ?_⟩ <;> simp [AuthController, Db, UserService, h]
  · intro i c h
    refine ⟨?_, ?_, ?_⟩ <;> simp [AuthController, Db, UserService, h]

/-- Witness for C8: applied to the container itself, the free accessor
`AuthController` returns exactly `GetAuthController` of that container. -/
theorem free_accessor_resolve_then_get_witness :
    AuthController (.ctn exCtn) = exCtn.GetAuthController :=
  (free_accessor_resolve_then_get.2 (.ctn exCtn) exCtn rfl).1

/-- C10: whenever a typed safe accessor returns a non-nil error — build
failure or cast failure — the accompanying typed result is the zero
value of the declared type (nil for the pointer type `*gorm.DB` and the
interface types, the zero struct for `controllers.AuthController`).
Shown for the accessors `SafeGetAuthController`, `UnscopedSafeGetDb`,
`SafeGetUserRepository`, `UnscopedSafeGetAuthController`, `SafeGetDb`
and `SafeGetUserService`. -/
theorem typed_accessor_zero_on_error (c : Container) :
    (∀ o e, c.SafeGetAuthController = (o, some e) → o = controllers.AuthController.zeroVal) ∧
    (∀ o e, c.UnscopedSafeGetDb = (o, some e) → o = gorm.DBPtr.zeroVal) ∧
    (∀ o e, c.SafeGetUserRepository = (o, some e) → o = repositories.IUserRepository.zeroVal) ∧
    (∀ o e, c.UnscopedSafeGetAuthController = (o, some e) → o = controllers.AuthController.zeroVal) ∧
    (∀ o e, c.SafeGetDb = (o, some e) → o = gorm.DBPtr.zeroVal) ∧
    (∀ o e, c.SafeGetUserService = (o, some e) → o = services.IUserService.zeroVal) := by
  refine ⟨?_, ?_, ?_, ?_, ?_, ?_⟩
  · intro o e h
    cases hr : c.ctn.safeGetRaw "auth-controller" with
    | error e2 => simp [Container.SafeGetAuthController, hr] at h; exact h.1.symm
    | ok v =>
      cases hc : castAuthController v with
      | some w => simp [Container.SafeGetAuthController, hr, hc] at h
      | none => simp [Container.SafeGetAuthController, hr, hc] at h; exact h.1.symm
  · intro o e h
    cases hr : c.ctn.unscopedSafeGetRaw "db" with
    | error e2 => simp [Container.UnscopedSafeGetDb, hr] at h; exact h.1.symm
    | ok v =>
      cases hc : castDb v with
      | some w => simp [Container.UnscopedSafeGetDb, hr, hc] at h
      | none => simp [Container.UnscopedSafeGetDb, hr, hc] at h; exact h.1.symm
  · intro o e h
    cases hr : c.ctn.safeGetRaw "user-repository" with
    | error e2 => simp [Container.SafeGetUserRepository, hr] at h; exact h.1.symm
    | ok v =>
      cases hc : castUserRepository v with
      | some w => simp [Container.SafeGetUserRepository, hr, hc] at h
      | none => simp [Container.SafeGetUserRepository, hr, hc] at h; exact h.1.symm
  · intro o e h
    cases hr : c.ctn.unscopedSafeGetRaw "auth-controller" with
    | error e2 => simp [Container.UnscopedSafeGetAuthController, hr] at h; exact h.1.symm
    | ok v =>
      cases hc : castAuthController v with
      | some w => simp [Container.UnscopedSafeGetAuthController, hr, hc] at h
      | none => simp [Container.UnscopedSafeGetAuthController, hr, hc] at h; exact h.1.symm
  · intro o e h
    cases hr : c.ctn.safeGetRaw "db" with
    | error e2 => simp [Container.SafeGetDb, hr] at h; exact h.1.symm
    | ok v =>
      cases hc : castDb v with
      | some w => simp [Container.SafeGetDb, hr, hc] at h
      | none => simp [Container.SafeGetDb, hr, hc] at h; exact h.1.symm
  · intro o e h
    cases hr : c.ctn.safeGetRaw "user-service" with
    | error e2 => simp [Container.SafeGetUserService, hr] at h; exact h.1.symm
    | ok v =>
      cases hc : castUserService v with
      | some w => simp [Container.SafeGetUserService, hr, hc] at h
      | none => simp [Container.SafeGetUserService, hr, hc] at h; exact h.1.symm

/-- Witness for C10: on `exCtn`, `user-repository` fails to build and
the typed result alongside the error is the nil interface value. -/
theorem typed_accessor_zero_on_error_witness :
    repositories.IUserRepository.nilVal = repositories.IUserRepository.zeroVal :=
  (typed_accessor_zero_on_error exCtn).2.2.1 .nilVal "could not build user-repository" rfl

lemma buildOrCached_cache_hit (d : BuildDef) (s : CtnState) (v : GoValue)
    (hb : s.closed = false) (hc : List.lookup d.name s.cache = some v) :
    buildOrCached d s = (.ok v, s) := by
  simp [buildOrCached, hb, hc]

lemma buildOrCached_ok_cached (d : BuildDef) {s s1 : CtnState} {v : GoValue}
    (hu : d.unshared = false) (h : buildOrCached d s = (.ok v, s1)) :
    s1.closed = false ∧ List.lookup d.name s1.cache = some v := by
  cases hcl : s.closed with
  | true => simp [buildOrCached, hcl] at h
  | false =>
    cases hl : List.lookup d.name s.cache with
    | some w =>
      simp [buildOrCached, hcl, hl] at h
      obtain ⟨hv, hs⟩ := h
      subst hs
      exact ⟨hcl, by rw [hl, hv]⟩
    | none =>
      cases hb : d.build s.buildTick with
      | error e => simp [buildOrCached, hcl, hl, hb] at h
      | ok w =>
        simp [buildOrCached, hcl, hl, hb, hu] at h
        obtain ⟨hv, hs⟩ := h
        subst hs
        subst hv
        exact ⟨rfl, by simp [List.lookup]⟩

/-- C4 (amended): for a definition that is not `unshared`, once a name
is built successfully in a container, every subsequent `SafeGet` for
that name returns the identical cached instance, however many calls
follow (the iteration never closes the container, so the cache stays
live). -/
theorem safeGet_idempotent_after_build (d : BuildDef) (s s1 : CtnState) (v : GoValue)
    (hu : d.unshared = false) (h : buildOrCached d s = (.ok v, s1)) :
    ∀ n, (buildOrCached d (iterState d s1 n)).1 = .ok v := by
  obtain ⟨hcl, hca⟩ := buildOrCached_ok_cached d hu h
  have key : ∀ n, iterState d s1 n = s1 := by
    intro n
    induction n with
    | zero => rfl
    | succ m ih => simp [iterState, ih, buildOrCached_cache_hit d s1 v hcl hca]
  intro n
  rw [key n, buildOrCached_cache_hit d s1 v hcl hca]

/-- Counterexample to C4 as stated: with a definition flagged
`unshared` (spec: "build a fresh instance every retrieval, never
cache"), the first `SafeGet` builds successfully, yet the next
`SafeGet` for the same name returns a different instance. -/
theorem safeGet_unshared_not_idempotent_cex :
    (buildOrCached freshDef emptyState).1 = .ok (.vOther "fresh" 0) ∧
    (buildOrCached freshDef (buildOrCached freshDef emptyState).2).1 = .ok (.vOther "fresh" 1) ∧
    GoValue.vOther "fresh" 0 ≠ GoValue.vOther "fresh" 1 :=
  ⟨rfl, rfl, by decide⟩

/-- Witness for the amended C4: after `connDef` is built once, the
result of the sixth following `SafeGet` is still the instance built
first. -/
theorem safeGet_idempotent_after_build_witness :
    (buildOrCached connDef
      (iterState connDef ⟨[("db", GoValue.vOther "conn" 0)], 1, false⟩ 5)).1 =
      .ok (.vOther "conn" 0) :=
  safeGet_idempotent_after_build connDef emptyState
    ⟨[("db", GoValue.vOther "conn" 0)], 1, false⟩ (.vOther "conn" 0) rfl rfl 5

lemma DiBuilder.add_ok_of_valid (b : DiBuilder) (d : DiDef)
    (hs : d.scope ∈ b.scopes) (hn : d.name ∉ b.registered.map DiDef.name)
    (hb : d.hasBuild = true) :
    b.add d = .ok { b with registered := b.registered ++ [d] } := by
  simp [DiBuilder.add, hs, hn, hb]

lemma DiBuilder.add_ok_inv (b : DiBuilder) (d : DiDef) (b1 : DiBuilder)
    (h : b.add d = .ok b1) :
    b1 = { b with registered := b.registered ++ [d] } := by
  unfold DiBuilder.add at h
  split_ifs at h
  simp_all

lemma DiBuilder.addAll_scopes (ds : List DiDef) :
    ∀ b b2 : DiBuilder, b.addAll ds = .ok b2 → b2.scopes = b.scopes := by
  induction ds with
  | nil =>
    intro b b2 h
    simp [DiBuilder.addAll] at h
    rw [← h]
  | cons d ds ih =>
    intro b b2 h
    cases ha : b.add d with
    | error e => simp [DiBuilder.addAll, ha] at h
    | ok b1 =>
      simp [DiBuilder.addAll, ha] at h
      rw [ih b1 b2 h, DiBuilder.add_ok_inv b d b1 ha]

lemma DiBuilder.addAll_ok (ds : List DiDef) :
    ∀ b : DiBuilder,
      (b.registered.map DiDef.name ++ ds.map DiDef.name).Nodup →
      (∀ d ∈ ds, d.scope ∈ b.scopes ∧ d.hasBuild = true) →
      ∃ b2, b.addAll ds = .ok b2 ∧ b2.scopes = b.scopes := by
  induction ds with
  | nil =>
    intro b _ _
    exact ⟨b, rfl, rfl⟩
  | cons d ds ih =>
    intro b hnd hvalid
    have hd := hvalid d (List.mem_cons_self d ds)
    have hnotin : d.name ∉ b.registered.map DiDef.name := by
      intro hmem
      exact (List.nodup_append.mp hnd).2.2 hmem (List.mem_cons_self _ _)
    have hadd := DiBuilder.add_ok_of_valid b d hd.1 hnotin hd.2
    have hnd2 :
        (({ b with registered := b.registered ++ [d] } : DiBuilder).registered.map DiDef.name ++
          ds.map DiDef.name).Nodup := by
      simpa [List.map_append, List.append_assoc] using hnd
    obtain ⟨b3, h3, hsc⟩ :=
      ih { b with registered := b.registered ++ [d] } hnd2
        (fun x hx => hvalid x (List.mem_cons_of_mem d hx))
    exact ⟨b3, by simp [DiBuilder.addAll, hadd, h3], hsc⟩

/-- C5: for every valid scope list (nonempty, no duplicates) and every
definition set with pairwise-distinct names, scopes drawn from the list
and non-nil build functions, creating the builder and adding all the
definitions succeeds, and the `Scope()` of the container produced by
`Build()` is the widest (first) element of the scope list. -/
theorem build_scope_widest (S : List String) (ds : List DiDef)
    (hS : S ≠ []) (hnd : S.Nodup) (hn : (ds.map DiDef.name).Nodup)
    (hd : ∀ d ∈ ds, d.scope ∈ S ∧ d.hasBuild = true) :
    ∃ b2, diNewBuilder S = .ok ⟨S, []⟩ ∧
      DiBuilder.addAll ⟨S, []⟩ ds = .ok b2 ∧
      (Builder.Build ⟨b2⟩).Scope = S.head hS := by
  have h0 : diNewBuilder S = .ok ⟨S, []⟩ := by simp [diNewBuilder, hS, hnd]
  obtain ⟨b2, h2, hsc⟩ := DiBuilder.addAll_ok ds ⟨S, []⟩ (by simpa using hn) hd
  refine ⟨b2, h0, h2, ?_⟩
  cases S with
  | nil => exact absurd rfl hS
  | cons a t => simp [Builder.Build, DiBuilder.build, Container.Scope, hsc]

/-- Witness for C5: with scope list `["app", "request"]` and two valid
definitions, building succeeds and the root container's scope is
`"app"`. -/
theorem build_scope_widest_witness :
    ∃ b2, diNewBuilder ["app", "request"] = .ok ⟨["app", "request"], []⟩ ∧
      DiBuilder.addAll ⟨["app", "request"], []⟩
        [⟨"db", "app", true⟩, ⟨"user-service", "request", true⟩] = .ok b2 ∧
      (Builder.Build ⟨b2⟩).Scope = "app" :=
  build_scope_widest ["app", "request"]
    [⟨"db", "app", true⟩, ⟨"user-service", "request", true⟩]
    (by decide) (by decide) (by decide) (by decide)

lemma diNewBuilder_ok_inv (scopes : List String) (b0 : DiBuilder)
    (h : diNewBuilder scopes = .ok b0) : b0 = ⟨scopes, []⟩ := by
  unfold diNewBuilder at h
  split_ifs at h
  simp_all

lemma newBuilder_ok_scopes (p : Provider) (scopes : List String) (b : Builder)
    (hne : scopes ≠ []) (h : NewBuilder p scopes = .ok b) :
    b.builder.scopes = scopes := by
  unfold NewBuilder at h
  simp only [if_neg hne] at h
  cases hd : diNewBuilder scopes with
  | error e => simp [hd] at h
  | ok b0 =>
    simp only [hd] at h
    cases hle : p.loadErr with
    | some e => simp [hle] at h
    | none =>
      simp only [hle] at h
      cases ha : b0.addAll (getDiDefs p) with
      | error e => simp [ha] at h
      | ok b2 =>
        simp only [ha, Except.ok.injEq] at h
        rw [← h]
        rw [show b2.scopes = b0.scopes from DiBuilder.addAll_scopes _ b0 b2 ha,
          diNewBuilder_ok_inv scopes b0 hd]

/-- C6: `NewBuilder` called with zero scopes behaves exactly as if the
three-level default scope list `[di.App, di.Request, di.SubRequest]`
(that is, `["app", "request", "subrequest"]`, widest first) had been
given, and any successfully produced builder carries the default list
in that case and the given scopes otherwise. -/
theorem newBuilder_default_scopes (p : Provider) :
    NewBuilder p [] = NewBuilder p [appScope, requestScope, subRequestScope] ∧
    (∀ b, NewBuilder p [] = .ok b →
      b.builder.scopes = [appScope, requestScope, subRequestScope]) ∧
    (∀ scopes b, scopes ≠ [] → NewBuilder p scopes = .ok b →
      b.builder.scopes = scopes) ∧
    [appScope, requestScope, subRequestScope] = ["app", "request", "subrequest"] := by
  have hsame : NewBuilder p [] = NewBuilder p [appScope, requestScope, subRequestScope] := by
    unfold NewBuilder
    rfl
  refine ⟨hsame, ?_, fun scopes b hne h => newBuilder_ok_scopes p scopes b hne h, rfl⟩
  intro b h
  exact newBuilder_ok_scopes p _ b (by simp [appScope, requestScope, subRequestScope])
    (hsame ▸ h)

/-- Witness for C6: with a trivial provider, `NewBuilder` on no scopes
equals `NewBuilder` on the default list, and the produced builder
carries exactly the default three scopes. -/
theorem newBuilder_default_scopes_witness :
    NewBuilder exProvider [] = NewBuilder exProvider [appScope, requestScope, subRequestScope] ∧
    (⟨⟨[appScope, requestScope, subRequestScope], []⟩⟩ : Builder).builder.scopes =
      [appScope, requestScope, subRequestScope] :=
  ⟨(newBuilder_default_scopes exProvider).1,
   (newBuilder_default_scopes exProvider).2.1
     ⟨⟨[appScope, requestScope, subRequestScope], []⟩⟩ rfl⟩

lemma DiBuilder.addAll_append (pre rest : List DiDef) :
    ∀ b b1 : DiBuilder, b.addAll pre = .ok b1 →
      b.addAll (pre ++ rest) = b1.addAll rest := by
  induction pre with
  | nil =>
    intro b b1 h
    simp [DiBuilder.addAll] at h
    simp [h]
  | cons d pre ih =>
    intro b b1 h
    cases ha : b.add d with
    | error e => simp [DiBuilder.addAll, ha] at h
    | ok b0 =>
      simp only [DiBuilder.addAll, ha] at h ⊢
      exact ih b0 b1 h

/-- C7: `NewBuilder` fails fast. If creating the `di.Builder` fails,
the wrapped error is returned and the provider is never consulted (the
result is the same for every provider); if loading the provider fails,
the wrapped load error is returned and no definition is added (the
result does not depend on the definition list); if adding some
definition fails after the earlier ones succeeded, the wrapped add
error is returned and the definitions after it are never added (the
result does not depend on them); and when every step succeeds a builder
is returned. -/
theorem newBuilder_fail_fast :
    (∀ (p q : Provider) (scopes : List String) e,
      diNewBuilder (if scopes = [] then [appScope, requestScope, subRequestScope] else scopes) =
        .error e →
      NewBuilder p scopes = .error ("could not create di.Builder: " ++ e) ∧
        NewBuilder p scopes = NewBuilder q scopes) ∧
    (∀ (scopes : List String) (e : String) (defs defs2 : List DiDef) (b0 : DiBuilder),
      diNewBuilder (if scopes = [] then [appScope, requestScope, subRequestScope] else scopes) =
        .ok b0 →
      NewBuilder ⟨some e, defs⟩ scopes =
        .error ("could not load definitions with the Provider (Provider from gotham/app/provider): " ++ e) ∧
        NewBuilder ⟨some e, defs⟩ scopes = NewBuilder ⟨some e, defs2⟩ scopes) ∧
    (∀ (scopes : List String) (b0 : DiBuilder) (pre : List DiDef) (d : DiDef)
        (post post2 : List DiDef) (b1 : DiBuilder) (e : String),
      diNewBuilder (if scopes = [] then [appScope, requestScope, subRequestScope] else scopes) =
        .ok b0 →
      b0.addAll pre = .ok b1 → b1.add d = .error e →
      NewBuilder ⟨none, pre ++ d :: post⟩ scopes =
        .error ("could not add di.Def in di.Builder: " ++ e) ∧
        NewBuilder ⟨none, pre ++ d :: post⟩ scopes =
          NewBuilder ⟨none, pre ++ d :: post2⟩ scopes) ∧
    (∀ (p : Provider) (scopes : List String) (b0 b2 : DiBuilder),
      diNewBuilder (if scopes = [] then [appScope, requestScope, subRequestScope] else scopes) =
        .ok b0 →
      p.loadErr = none → b0.addAll (getDiDefs p) = .ok b2 →
      NewBuilder p scopes = .ok ⟨b2⟩) := by
  refine ⟨?_, ?_, ?_, ?_⟩
  · intro p q scopes e hd
    constructor <;> simp [NewBuilder, hd]
  · intro scopes e defs defs2 b0 hd
    constructor <;> simp [NewBuilder, hd]
  · intro scopes b0 pre d post post2 b1 e hd hpre hadd
    have hall : ∀ rest : List DiDef,
        b0.addAll (pre ++ d :: rest) = .error e := by
      intro rest
      rw [DiBuilder.addAll_append pre (d :: rest) b0 b1 hpre]
      simp [DiBuilder.addAll, hadd]
    constructor <;> simp [NewBuilder, hd, getDiDefs, hall]
  · intro p scopes b0 b2 hd hle ha
    simp [NewBuilder, hd, hle, ha]

/-- Witness for C7: with scope list `["app"]`, a definition in the
unknown scope `"request"` makes `NewBuilder` return the wrapped add
error, and the definition after it is irrelevant. -/
theorem newBuilder_fail_fast_witness :
    NewBuilder ⟨none, [⟨"db", "request", true⟩, ⟨"x", "app", true⟩]⟩ ["app"] =
      .error ("could not add di.Def in di.Builder: " ++
        ("definition " ++ "db" ++ " has an unknown scope " ++ "request")) :=
  (newBuilder_fail_fast.2.2.1 ["app"] ⟨["app"], []⟩ [] ⟨"db", "request", true⟩
    [⟨"x", "app", true⟩] [] ⟨["app"], []⟩
    ("definition " ++ "db" ++ " has an unknown scope " ++ "request") rfl rfl rfl).1

end GothamDic
